import Mathlib

/-!
Verification of the core algorithm of the `SvExEvalSurfaceNode` node
(`src/nodes/surface/evaluate_surface.py`): parameter resolution, grid
topology generation, surface sampling and output transformation.

Scalars are modelled as rationals (the Python code computes with floats,
but every property at issue is exact arithmetic and data movement).
A point batch as it occurs in the node is a flat N×3 numpy array,
modelled as `List Vec3`.
-/

namespace EvalSurface

/-- A 3D point (one row of an N×3 numpy array). -/
abbrev Vec3 : Type := ℚ × ℚ × ℚ

/-- A 3×3 matrix given by rows, as produced by `matrix.to_3x3()`. -/
abbrev Mat3 : Type := Vec3 × Vec3 × Vec3

/-- The node's `coord_mode` property: `('XY', "X Y -> Z", ...)` or `('UV', "U V -> X Y Z", ...)`. -/
inductive CoordMode where
  | XY
  | UV
deriving DecidableEq

/-- The node's `eval_mode` property: `GRID` or `EXPLICIT`. -/
inductive EvalMode where
  | GRID
  | EXPLICIT
deriving DecidableEq

/-- The node's `input_mode` property: `PAIRS` (separate U V sockets) or `VERTICES`. -/
inductive InputMode where
  | PAIRS
  | VERTICES
deriving DecidableEq

/-- The node's `orientation` property: which plane input vertices are projected onto. -/
inductive Plane where
  | XY
  | YZ
  | XZ
deriving DecidableEq

/-- A surface's input orientation (`surface.get_input_orientation()`): `X`, `Y` or `Z`. -/
inductive Axis where
  | X
  | Y
  | Z
deriving DecidableEq

/-- The opaque Surface capability as consumed by the node: coordinate mode,
domain bounds, input orientation, optional placement (matrix + translation)
and a pointwise evaluator underlying `evaluate_array`. -/
structure Surface where
  coord_mode : CoordMode
  u_min : ℚ
  u_max : ℚ
  v_min : ℚ
  v_max : ℚ
  input_orientation : Axis
  has_input_matrix : Bool
  matrix : Mat3
  translation : Vec3
  evaluate : ℚ → ℚ → Vec3

/-- Modelled from the spec: the Surface capability's batch evaluation
`evaluate(uArray, vArray) -> pointArray` (the concrete surface classes are
not part of this file's source). Per the spec, `uArray` and `vArray` are
equal-length 1-D sequences of reals and the result is an equal-length
sequence of 3D points; arrays of unequal length are outside the contract
and the evaluation fails (numpy shape mismatch). -/
def evaluate_array (s : Surface) (us vs : List ℚ) : Option (List Vec3) :=
  if us.length = vs.length then some (List.zipWith s.evaluate us vs) else none

/-- Write component 0 of a point (numpy column 0 of the row). -/
def setX (p : Vec3) (v : ℚ) : Vec3 := (v, p.2.1, p.2.2)

/-- Write component 1 of a point (numpy column 1 of the row). -/
def setY (p : Vec3) (v : ℚ) : Vec3 := (p.1, v, p.2.2)

/-- Write component 2 of a point (numpy column 2 of the row). -/
def setZ (p : Vec3) (v : ℚ) : Vec3 := (p.1, p.2.1, v)

/-- Per-point effect of
`verts[:,1], verts[:,2], verts[:,0] = verts[:,0], verts[:,1], verts[:,2]`
(the `orientation == 'X'` branch of `build_output`). The right-hand sides
are numpy views into `verts` itself, and the three column assignments are
executed left to right, so each assignment reads the column contents left
by the previous ones. -/
def orientX (p : Vec3) : Vec3 :=
  let s1 := setY p p.1
  let s2 := setZ s1 s1.2.1
  setX s2 s2.2.2

/-- Per-point effect of
`verts[:,2], verts[:,0], verts[:,1] = verts[:,0], verts[:,1], verts[:,2]`
(the `orientation == 'Y'` branch of `build_output`), with the same
view/assignment-order semantics as `orientX`. -/
def orientY (p : Vec3) : Vec3 :=
  let s1 := setZ p p.1
  let s2 := setX s1 s1.2.1
  setY s2 s2.2.2

/-- Componentwise difference `v - t` (numpy `verts - matrix.translation`
broadcast over the rows of an N×3 array). -/
def sub3 (v t : Vec3) : Vec3 := (v.1 - t.1, v.2.1 - t.2.1, v.2.2 - t.2.2)

/-- Dot product of two 3-vectors. -/
def dot3 (a b : Vec3) : ℚ := a.1 * b.1 + a.2.1 * b.2.1 + a.2.2 * b.2.2

/-- Matrix–vector product `np_matrix @ v` for a 3×3 matrix given by rows. -/
def matVec (m : Mat3) (v : Vec3) : Vec3 := (dot3 m.1 v, dot3 m.2.1 v, dot3 m.2.2 v)

/-- `np.apply_along_axis(lambda v: np_matrix @ v, axis, verts)` for a 2-D
N×3 array `verts`. A 2-D array has axes 0 and 1 only; with `axis = 1` the
lambda is applied to every row (a 3-vector); any other axis is out of
bounds for an array of dimension 2 and numpy raises `AxisError`, modelled
as `none`. -/
def apply_matvec_along_axis (axis : ℕ) (m : Mat3) (verts : List Vec3) :
    Option (List Vec3) :=
  if axis = 1 then some (verts.map (matVec m)) else none

/-- `build_output(self, surface, verts)`: permute the raw output columns
according to the surface's input orientation (with numpy's sequential
view-assignment semantics), then, if the surface carries a placement,
subtract its translation from every point and apply its 3×3 matrix via
`np.apply_along_axis(lambda v: np_matrix @ v, 2, verts)`. `verts` is the
flat N×3 result of `evaluate_array`, so the axis-2 application is out of
bounds. -/
def build_output (surface : Surface) (verts : List Vec3) : Option (List Vec3) :=
  let verts :=
    match surface.input_orientation with
    | Axis.X => verts.map orientX
    | Axis.Y => verts.map orientY
    | Axis.Z => verts
  if surface.has_input_matrix then
    let verts := verts.map (fun v => sub3 v surface.translation)
    apply_matvec_along_axis 2 surface.matrix verts
  else
    some verts

/-- `parse_input(self, verts)`: project each input vertex onto the plane
selected by the node's `orientation` property, yielding the U and V
parameter columns. -/
def parse_input (orientation : Plane) (verts : List Vec3) : List ℚ × List ℚ :=
  match orientation with
  | Plane.XY => (verts.map (fun v => v.1), verts.map (fun v => v.2.1))
  | Plane.YZ => (verts.map (fun v => v.2.1), verts.map (fun v => v.2.2))
  | Plane.XZ => (verts.map (fun v => v.1), verts.map (fun v => v.2.2))

/-- `np.linspace(a, b, num=n)` with the default inclusive endpoint:
`n` evenly spaced samples from `a` to `b`. (For `n = 1` the quotient
denominator is `0` and the rational division yields `0`, so the list is
`[a]`, matching numpy.) -/
def linspace (a b : ℚ) (n : ℕ) : List ℚ :=
  (List.range n).map (fun (i : ℕ) => a + (b - a) * (i : ℚ) / ((n : ℚ) - 1))

/-- `make_grid_input(self, surface, samples_u, samples_v)`: linspace over
the surface's declared domain on each axis, then `np.meshgrid(us, vs)`
(default "xy" indexing: both grids have shape `samples_v × samples_u`,
row `r` of the U-grid is `us` itself and row `r` of the V-grid is
constantly `vs[r]`), then row-major `flatten` of both grids. -/
def make_grid_input (surface : Surface) (samples_u samples_v : ℕ) :
    List ℚ × List ℚ :=
  let us := linspace surface.u_min surface.u_max samples_u
  let vs := linspace surface.v_min surface.v_max samples_v
  let us_grid := vs.map (fun _ => us)
  let vs_grid := vs.map (fun v => us.map (fun _ => v))
  (us_grid.flatten, vs_grid.flatten)

/-- `make_edges_xy(self, samples_u, samples_v)`: per row, the horizontal
edges between consecutive columns, followed (for all but the last row) by
the vertical edges into the next row. -/
def make_edges_xy (samples_u samples_v : ℕ) : List (ℕ × ℕ) :=
  (List.range samples_v).flatMap (fun row =>
    ((List.range (samples_u - 1)).map
        (fun i => (i + samples_u * row, (i + 1) + samples_u * row)))
      ++ (if row < samples_v - 1 then
            (List.range samples_u).map
              (fun i => (i + samples_u * row, i + samples_u * (row + 1)))
          else []))

/-- `make_faces_xy(self, samples_u, samples_v)`: one quad per interior
cell, `(i, i+samples_u, i+samples_u+1, i+1)` with `i = row*samples_u + col`. -/
def make_faces_xy (samples_u samples_v : ℕ) : List (ℕ × ℕ × ℕ × ℕ) :=
  (List.range (samples_v - 1)).flatMap (fun row =>
    (List.range (samples_u - 1)).map (fun col =>
      let i := row * samples_u + col
      (i, i + samples_u, i + samples_u + 1, i + 1)))

/-- One aligned input tuple of the orchestrator loop: the values drawn from
the six input collections for one iteration of `for surface, target_us,
target_vs, target_verts, samples_u, samples_v in inputs`. -/
structure InTuple where
  surface : Surface
  target_us : List ℚ
  target_vs : List ℚ
  target_verts : List Vec3
  samples_u : ℕ
  samples_v : ℕ

/-- Modelled from the spec: element `p` of a sequence padded by
repeating its last element (`seq[min(p, len-1)]`), the per-sequence
behavior of the external `zip_long_repeat` alignment utility; `none`
exactly when the sequence is empty. -/
def nthRepeatLast (l : List α) (p : ℕ) : Option α :=
  l[min p (l.length - 1)]?

/-- The aligned tuple at position `p` of the six input collections. -/
def alignAt (surfaces_s : List Surface) (us_s vs_s : List (List ℚ))
    (verts_s : List (List Vec3)) (su_s sv_s : List ℕ) (p : ℕ) :
    Option InTuple := do
  let s ← nthRepeatLast surfaces_s p
  let us ← nthRepeatLast us_s p
  let vs ← nthRepeatLast vs_s p
  let verts ← nthRepeatLast verts_s p
  let su ← nthRepeatLast su_s p
  let sv ← nthRepeatLast sv_s p
  pure ⟨s, us, vs, verts, su, sv⟩

/-- Collect the aligned tuples at the given positions; fails as soon as
one of the input collections cannot supply an element (it is empty). -/
def buildTuples (g : ℕ → Option InTuple) : List ℕ → Option (List InTuple)
  | [] => some []
  | p :: ps => do
    let t ← g p
    let ts ← buildTuples g ps
    pure (t :: ts)

/-- Modelled from the spec: the external alignment utility
`zip_long_repeat(surfaces_s, target_us_s, target_vs_s, target_verts_s,
samples_u_s, samples_v_s)` — produce `max(Lᵢ)` tuples where sequence `i`
contributes `seqᵢ[min(p, Lᵢ-1)]` at position `p`; a zero-length input
sequence makes alignment impossible. -/
def zip_long_repeat (surfaces_s : List Surface) (us_s vs_s : List (List ℚ))
    (verts_s : List (List Vec3)) (su_s sv_s : List ℕ) :
    Option (List InTuple) :=
  let n := max (max (max surfaces_s.length us_s.length)
                (max vs_s.length verts_s.length))
               (max su_s.length sv_s.length)
  buildTuples (alignAt surfaces_s us_s vs_s verts_s su_s sv_s) (List.range n)

/-- The body of the orchestrator loop for one aligned tuple: resolve the
parameter arrays (synthesized grid, projected vertices, or the pair of
explicit arrays), build the grid topology when in grid mode, evaluate the
surface, and in planar (`XY`) mode run the raw points through
`build_output`. `none` models an exception aborting the run. -/
def processTuple (coord_mode : CoordMode) (eval_mode : EvalMode)
    (input_mode : InputMode) (orientation : Plane) (surface : Surface)
    (target_us target_vs : List ℚ) (target_verts : List Vec3)
    (samples_u samples_v : ℕ) :
    Option (List Vec3 × List (ℕ × ℕ) × List (ℕ × ℕ × ℕ × ℕ)) :=
  let resolved :=
    match eval_mode with
    | EvalMode.GRID =>
        let gi := make_grid_input surface samples_u samples_v
        (gi.1, gi.2, make_edges_xy samples_u samples_v,
         make_faces_xy samples_u samples_v)
    | EvalMode.EXPLICIT =>
        match input_mode with
        | InputMode.VERTICES =>
            let pi := parse_input orientation target_verts
            (pi.1, pi.2, [], [])
        | InputMode.PAIRS => (target_us, target_vs, [], [])
  match evaluate_array surface resolved.1 resolved.2.1 with
  | none => none
  | some new_verts =>
      match coord_mode with
      | CoordMode.XY =>
          (build_output surface new_verts).map
            (fun v => (v, resolved.2.2.1, resolved.2.2.2))
      | CoordMode.UV => some (new_verts, resolved.2.2.1, resolved.2.2.2)

/-- The orchestrator loop: process the aligned tuples in order, appending
each tuple's points, edges and faces to the three output collections; an
exception in any iteration aborts the whole run with no outputs set. -/
def processLoop (coord_mode : CoordMode) (eval_mode : EvalMode)
    (input_mode : InputMode) (orientation : Plane) :
    List InTuple →
      Option (List (List Vec3) × List (List (ℕ × ℕ)) ×
              List (List (ℕ × ℕ × ℕ × ℕ)))
  | [] => some ([], [], [])
  | t :: rest => do
    let r ← processTuple coord_mode eval_mode input_mode orientation
      t.surface t.target_us t.target_vs t.target_verts t.samples_u t.samples_v
    let acc ← processLoop coord_mode eval_mode input_mode orientation rest
    pure (r.1 :: acc.1, r.2.1 :: acc.2.1, r.2.2 :: acc.2.2)

/-- How many times the loop invokes `surface.evaluate_array`: once per
iteration, stopping after the first iteration that raises. -/
def evalCalls (coord_mode : CoordMode) (eval_mode : EvalMode)
    (input_mode : InputMode) (orientation : Plane) : List InTuple → ℕ
  | [] => 0
  | t :: rest =>
    1 + (if (processTuple coord_mode eval_mode input_mode orientation
              t.surface t.target_us t.target_vs t.target_verts
              t.samples_u t.samples_v).isSome then
           evalCalls coord_mode eval_mode input_mode orientation rest
         else 0)

/-- Observable outcome of one `process()` invocation: how many surface
evaluations ran, whether the input sockets were read, and the outputs set
on the three output sockets (`none` when nothing was set). -/
structure RunResult where
  eval_count : ℕ
  inputs_read : Bool
  outputs_set : Option (List (List Vec3) × List (List (ℕ × ℕ)) ×
                        List (List (ℕ × ℕ × ℕ × ℕ)))

/-- `process(self)`: if no output socket is linked, return immediately
(nothing read, nothing evaluated, nothing set); otherwise read the six
inputs, align them with `zip_long_repeat`, run the loop and set the three
output sockets. -/
def process (coord_mode : CoordMode) (eval_mode : EvalMode)
    (input_mode : InputMode) (orientation : Plane)
    (verts_linked edges_linked faces_linked : Bool)
    (surfaces_s : List Surface) (us_s vs_s : List (List ℚ))
    (verts_s : List (List Vec3)) (su_s sv_s : List ℕ) : RunResult :=
  if !(verts_linked || edges_linked || faces_linked) then
    ⟨0, false, none⟩
  else
    match zip_long_repeat surfaces_s us_s vs_s verts_s su_s sv_s with
    | none => ⟨0, true, none⟩
    | some tuples =>
        ⟨evalCalls coord_mode eval_mode input_mode orientation tuples, true,
         processLoop coord_mode eval_mode input_mode orientation tuples⟩

/-- A planar (`XY`-mode) surface with input orientation `X` and no placement. -/
def surfOrientX : Surface :=
  ⟨CoordMode.XY, 0, 1, 0, 1, Axis.X, false,
   ((1, 0, 0), (0, 1, 0), (0, 0, 1)), (0, 0, 0), fun u v => (u, v, 0)⟩

/-- A planar (`XY`-mode) surface carrying a placement (`has_input_matrix = true`). -/
def surfPlaced : Surface :=
  ⟨CoordMode.XY, 0, 1, 0, 1, Axis.Z, true,
   ((1, 0, 0), (0, 1, 0), (0, 0, 1)), (1, 2, 3), fun u v => (u, v, 0)⟩

/-- A general-UV surface over `[0,1]×[0,1]` whose evaluator is `(u,v) ↦ (u,v,0)`. -/
def surfUV : Surface :=
  ⟨CoordMode.UV, 0, 1, 0, 1, Axis.Z, false,
   ((1, 0, 0), (0, 1, 0), (0, 0, 1)), (0, 0, 0), fun u v => (u, v, 0)⟩

/-- Relates two `Option`s: both absent, or both present with related values. -/
def optRel (R : α → β → Prop) : Option α → Option β → Prop
  | none, none => True
  | some a, some b => R a b
  | _, _ => False

/-- Relates two aligned tuples that agree on surface and sample counts
(the components a grid-mode iteration actually uses). -/
def gridRel (t1 t2 : InTuple) : Prop :=
  t1.surface = t2.surface ∧ t1.samples_u = t2.samples_u ∧
    t1.samples_v = t2.samples_v

/-- C1 (counterexample): the claim says an `X`-orientation planar surface
sends the raw point `(1,2,3)` to `(2,3,1)`; the code's sequential numpy
view assignments actually send it to `(1,1,1)`. -/
theorem C1_counterexample :
    build_output surfOrientX [(1, 2, 3)] ≠ some [(2, 3, 1)] := by
  decide

/-- C1 (amended): for a planar surface without placement, the output
transform sends every raw point `(x,y,z)` to `(x,x,x)` when the input
orientation is `X`, to `(y,x,x)` when it is `Y`, and leaves it unchanged
when it is `Z` — the numpy tuple assignment reads views of columns that
previous assignments in the same statement already overwrote. -/
theorem C1_orientation_output (s : Surface) (verts : List Vec3)
    (hm : s.has_input_matrix = false) :
    (s.input_orientation = Axis.X →
      build_output s verts = some (verts.map (fun p => (p.1, p.1, p.1)))) ∧
    (s.input_orientation = Axis.Y →
      build_output s verts = some (verts.map (fun p => (p.2.1, p.1, p.1)))) ∧
    (s.input_orientation = Axis.Z → build_output s verts = some verts) := by
  refine ⟨fun h => ?_, fun h => ?_, fun h => ?_⟩ <;>
    simp [build_output, h, hm, orientX, orientY, setX, setY, setZ]

/-- C1 (witness for the amended theorem): the `X`-orientation surface
sends `(1,2,3)` to `(1,1,1)`. -/
theorem C1_orientation_output_witness :
    build_output surfOrientX [(1, 2, 3)] = some [(1, 1, 1)] :=
  (C1_orientation_output surfOrientX [(1, 2, 3)] rfl).1 rfl

/-- C2 (code evaluated at the failing input): whenever a planar surface
carries a placement, the output transform fails — the matrix is applied
with `np.apply_along_axis(..., 2, verts)`, but `verts` is the flat N×3
array produced by `evaluate_array`, which has no axis 2, so numpy raises
`AxisError` instead of computing `rotation · (raw − translation)`. -/
theorem C2_placement_axis_error (s : Surface) (verts : List Vec3)
    (h : s.has_input_matrix = true) : build_output s verts = none := by
  cases ho : s.input_orientation <;>
    simp [build_output, h, ho, apply_matvec_along_axis]

/-- C2 (witness): the concrete placed surface fails on the one-point flat
batch `[(1,2,3)]`. -/
theorem C2_placement_axis_error_witness :
    build_output surfPlaced [(1, 2, 3)] = none :=
  C2_placement_axis_error surfPlaced [(1, 2, 3)] rfl

/-- C7 (confirmed): in explicit vertex mode, every vertex is projected
onto the plane selected by the orientation setting — `XY ↦ (x,y)`,
`YZ ↦ (y,z)`, `XZ ↦ (x,z)` — and in particular `(10,20,30)` under `YZ`
resolves to `(u,v) = (20,30)`. -/
theorem C7_vertex_projection (verts : List Vec3) :
    parse_input Plane.XY verts
      = (verts.map (fun v => v.1), verts.map (fun v => v.2.1)) ∧
    parse_input Plane.YZ verts
      = (verts.map (fun v => v.2.1), verts.map (fun v => v.2.2)) ∧
    parse_input Plane.XZ verts
      = (verts.map (fun v => v.1), verts.map (fun v => v.2.2)) ∧
    parse_input Plane.YZ [(10, 20, 30)] = ([20], [30]) :=
  ⟨rfl, rfl, rfl, rfl⟩

/-- C8 (confirmed): when none of the three output sockets is linked,
`process` returns before reading any input: zero surface evaluations,
no inputs read, no outputs set. -/
theorem C8_demand_short_circuit (cm : CoordMode) (em : EvalMode)
    (im : InputMode) (o : Plane) (lv le lf : Bool)
    (surfaces_s : List Surface) (us_s vs_s : List (List ℚ))
    (verts_s : List (List Vec3)) (su_s sv_s : List ℕ)
    (hv : lv = false) (he : le = false) (hf : lf = false) :
    process cm em im o lv le lf surfaces_s us_s vs_s verts_s su_s sv_s
      = ⟨0, false, none⟩ := by
  subst hv he hf
  rfl

/-- C8 (witness): a concrete unlinked run does nothing. -/
theorem C8_demand_short_circuit_witness :
    process CoordMode.XY EvalMode.GRID InputMode.PAIRS Plane.XY
        false false false [surfUV] [[0]] [[0]] [[(0, 0, 0)]] [4] [4]
      = ⟨0, false, none⟩ :=
  C8_demand_short_circuit CoordMode.XY EvalMode.GRID InputMode.PAIRS Plane.XY
    false false false [surfUV] [[0]] [[0]] [[(0, 0, 0)]] [4] [4] rfl rfl rfl

/-- C9 (confirmed, against the spec's contract for the opaque surface
evaluator): in explicit paired-scalar mode the node passes the two arrays
to `evaluate_array` unvalidated and unpadded; when their lengths differ
the evaluation fails and the tuple produces no output. -/
theorem C9_mismatched_lengths_fatal (cm : CoordMode) (o : Plane)
    (s : Surface) (us vs : List ℚ) (verts : List Vec3) (su sv : ℕ)
    (h : us.length ≠ vs.length) :
    processTuple cm EvalMode.EXPLICIT InputMode.PAIRS o s us vs verts su sv
      = none := by
  simp [processTuple, evaluate_array, h]

/-- C9 (witness): `U = [0,1]` against `V = [5]` is fatal. -/
theorem C9_mismatched_lengths_fatal_witness :
    processTuple CoordMode.UV EvalMode.EXPLICIT InputMode.PAIRS Plane.XY
        surfUV [0, 1] [5] [] 25 25 = none :=
  C9_mismatched_lengths_fatal CoordMode.UV Plane.XY surfUV [0, 1] [5] [] 25 25
    (by decide)

/-- Every `linspace` call returns exactly `n` samples. -/
lemma linspace_length (a b : ℚ) (n : ℕ) : (linspace a b n).length = n := by
  rw [linspace, List.length_map, List.length_range]

/-- Both flattened grids have `samples_v * samples_u` entries. -/
lemma make_grid_input_length (s : Surface) (su sv : ℕ) :
    (make_grid_input s su sv).1.length = sv * su ∧
    (make_grid_input s su sv).2.length = sv * su := by
  constructor <;>
    simp [make_grid_input, List.length_flatten, Function.comp_def,
      List.map_map, List.length_replicate, List.map_const',
      List.sum_replicate, smul_eq_mul, linspace_length]

/-- C3 (counterexample): with `samplesU = 2, samplesV = 3` the node does
not fail: it evaluates the degenerate grid and silently emits two faces
and seven edges. -/
theorem C3_counterexample :
    (processTuple CoordMode.UV EvalMode.GRID InputMode.PAIRS Plane.XY
        surfUV [] [] [] 2 3).isSome = true ∧
    (processTuple CoordMode.UV EvalMode.GRID InputMode.PAIRS Plane.XY
        surfUV [] [] [] 2 3).map (fun r => (r.2.1, r.2.2))
      = some ([(0, 1), (0, 2), (1, 3), (2, 3), (2, 4), (3, 5), (4, 5)],
              [(0, 2, 3, 1), (2, 4, 5, 3)]) :=
  ⟨rfl, rfl⟩

/-- C3 (amended): in grid mode a degenerate sample count is not rejected —
for `samplesU = 2` and any `samplesV` the node silently synthesizes the
2-column grid and emits its points together with the full edge and face
lists, with no validation anywhere in `process`. -/
theorem C3_degenerate_grid_not_rejected (im : InputMode) (o : Plane)
    (s : Surface) (tus tvs : List ℚ) (tverts : List Vec3) (sv : ℕ) :
    processTuple CoordMode.UV EvalMode.GRID im o s tus tvs tverts 2 sv
      = some (List.zipWith s.evaluate (make_grid_input s 2 sv).1
                (make_grid_input s 2 sv).2,
              make_edges_xy 2 sv, make_faces_xy 2 sv) := by
  have h := make_grid_input_length s 2 sv
  simp [processTuple, evaluate_array, h.1, h.2]

/-- C6 (confirmed): in explicit paired-scalar mode the U and V arrays are
handed to the surface evaluator exactly as given, edge and face outputs
are always empty, and for the evaluator `(u,v) ↦ (u,v,0)` the inputs
`U = [0,1,2]`, `V = [5,6,7]` produce `[(0,5,0), (1,6,0), (2,7,0)]`. -/
theorem C6_explicit_pairs_passthrough (cm : CoordMode) (o : Plane)
    (s : Surface) (us vs : List ℚ) (verts : List Vec3) (su sv : ℕ)
    (hlen : us.length = vs.length) :
    (cm = CoordMode.UV →
      processTuple cm EvalMode.EXPLICIT InputMode.PAIRS o s us vs verts su sv
        = some (List.zipWith s.evaluate us vs, [], [])) ∧
    (∀ r, processTuple cm EvalMode.EXPLICIT InputMode.PAIRS o s us vs verts
            su sv = some r → r.2.1 = [] ∧ r.2.2 = []) ∧
    processTuple CoordMode.UV EvalMode.EXPLICIT InputMode.PAIRS o surfUV
        [0, 1, 2] [5, 6, 7] verts su sv
      = some ([(0, 5, 0), (1, 6, 0), (2, 7, 0)], [], []) := by
  refine ⟨fun hcm => ?_, fun r hr => ?_, rfl⟩
  · subst hcm
    simp [processTuple, evaluate_array, hlen]
  · cases cm with
    | XY =>
        simp only [processTuple, evaluate_array, if_pos hlen] at hr
        rw [Option.map_eq_some'] at hr
        obtain ⟨bv, hbv, heq⟩ := hr
        subst heq
        exact ⟨rfl, rfl⟩
    | UV =>
        simp only [processTuple, evaluate_array, if_pos hlen] at hr
        rw [Option.some_inj] at hr
        subst hr
        exact ⟨rfl, rfl⟩

/-- C6 (witness): the concrete pass-through instance. -/
theorem C6_explicit_pairs_passthrough_witness :
    processTuple CoordMode.UV EvalMode.EXPLICIT InputMode.PAIRS Plane.XY
        surfUV [0, 1, 2] [5, 6, 7] [] 25 25
      = some ([(0, 5, 0), (1, 6, 0), (2, 7, 0)], [], []) :=
  (C6_explicit_pairs_passthrough CoordMode.UV Plane.XY surfUV [0, 1, 2]
    [5, 6, 7] [] 25 25 rfl).2.2

/-- Indexing the row-major flattening of a list of equal-width rows:
position `r * w + c` reads entry `c` of row `r`. -/
lemma flatten_getElem_const_width {α : Type} (w c : ℕ) (hc : c < w) :
    ∀ (l : List (List α)) (r : ℕ), (∀ row ∈ l, row.length = w) →
      l.flatten[r * w + c]? = l[r]?.bind (fun row => row[c]?) := by
  intro l
  induction l with
  | nil => intro r _; simp
  | cons x xs ih =>
      intro r hw
      have hx : x.length = w := hw x (List.mem_cons_self x xs)
      cases r with
      | zero =>
          rw [List.flatten_cons]
          rw [List.getElem?_append_left (by omega : 0 * w + c < x.length)]
          simp
      | succ r =>
          rw [List.flatten_cons]
          have h1 : (r + 1) * w + c = x.length + (r * w + c) := by
            rw [hx, Nat.succ_mul]; ring
          rw [h1, List.getElem?_append_right (Nat.le_add_right _ _),
            Nat.add_sub_cancel_left]
          rw [ih r (fun row hr => hw row (List.mem_cons_of_mem x hr))]
          simp

/-- C4 (confirmed): in grid mode the resolved parameter arrays are the
row-major flattening of the cross product of the two linspace arrays —
flattened index `r * samplesU + c` holds `(uArray[c], vArray[r])`. -/
theorem C4_grid_row_major (s : Surface) (su sv r c : ℕ)
    (hu : s.u_min < s.u_max) (hv : s.v_min < s.v_max)
    (hr : r < sv) (hc : c < su) :
    (make_grid_input s su sv).1[r * su + c]?
      = (linspace s.u_min s.u_max su)[c]? ∧
    (make_grid_input s su sv).2[r * su + c]?
      = (linspace s.v_min s.v_max sv)[r]? := by
  set us := linspace s.u_min s.u_max su with hus
  set vs := linspace s.v_min s.v_max sv with hvs
  have hlu : us.length = su := linspace_length _ _ _
  have hlv : vs.length = sv := linspace_length _ _ _
  have hr2 : r < vs.length := by rw [hlv]; exact hr
  have hc2 : c < us.length := by rw [hlu]; exact hc
  constructor
  · show (vs.map (fun _ => us)).flatten[r * su + c]? = us[c]?
    rw [flatten_getElem_const_width su c hc _ r ?_]
    · rw [List.getElem?_map, List.getElem?_eq_getElem hr2]
      simp
    · intro row hrow
      simp only [List.mem_map] at hrow
      obtain ⟨v, hv3, rfl⟩ := hrow
      exact hlu
  · show (vs.map (fun v => us.map (fun _ => v))).flatten[r * su + c]? = vs[r]?
    rw [flatten_getElem_const_width su c hc _ r ?_]
    · rw [List.getElem?_map, List.getElem?_eq_getElem hr2]
      simp only [Option.map_some', Option.some_bind]
      rw [List.getElem?_map, List.getElem?_eq_getElem hc2]
      simp [List.getElem?_eq_getElem hr2]
    · intro row hrow
      simp only [List.mem_map] at hrow
      obtain ⟨v, hv3, rfl⟩ := hrow
      simp [hlu]

/-- C4 (witness): the `samplesU = 4, samplesV = 3` instance of the spec's
grid-ordering property at `r = 1, c = 2`. -/
theorem C4_grid_row_major_witness :
    (make_grid_input surfUV 4 3).1[1 * 4 + 2]?
      = (linspace surfUV.u_min surfUV.u_max 4)[2]? ∧
    (make_grid_input surfUV 4 3).2[1 * 4 + 2]?
      = (linspace surfUV.v_min surfUV.v_max 3)[1]? :=
  C4_grid_row_major surfUV 4 3 1 2 (by decide) (by decide)
    (by decide) (by decide)

/-- Summing a per-row cost of `a`, plus `b` for the rows below a cutoff. -/
lemma sum_row_lengths (a b k : ℕ) :
    ∀ n : ℕ, ((List.range n).map (fun row => a + if row < k then b else 0)).sum
      = n * a + min n k * b := by
  intro n
  induction n with
  | zero => simp
  | succ n ih =>
      rw [List.range_succ, List.map_append, List.sum_append, ih]
      simp only [List.map_cons, List.map_nil, List.sum_cons, List.sum_nil,
        Nat.add_zero]
      rcases Nat.lt_or_ge n k with h | h
      · rw [if_pos h, Nat.min_eq_left (Nat.le_of_lt h), Nat.min_eq_left h,
          Nat.succ_mul, Nat.succ_mul]
        ring
      · rw [if_neg (Nat.not_lt.mpr h), Nat.min_eq_right h,
          Nat.min_eq_right (Nat.le_trans h (Nat.le_succ n)), Nat.succ_mul]
        ring

/-- Edge count of the grid topology: `samples_u - 1` horizontal edges per
row plus `samples_u` vertical edges per non-final row. -/
lemma make_edges_xy_length (m n : ℕ) :
    (make_edges_xy m n).length = n * (m - 1) + (n - 1) * m := by
  rw [make_edges_xy, List.length_flatMap]
  have hmap : List.map (List.length ∘ fun row =>
        ((List.range (m - 1)).map
            (fun i => (i + m * row, (i + 1) + m * row)))
          ++ (if row < n - 1 then
                (List.range m).map
                  (fun i => (i + m * row, i + m * (row + 1)))
              else []))
        (List.range n)
      = (List.range n).map
          (fun row => (m - 1) + if row < n - 1 then m else 0) := by
    apply List.map_congr_left
    intro row hrow
    simp [Function.comp_def, List.length_append, apply_ite List.length]
  rw [hmap, sum_row_lengths]
  rw [Nat.min_eq_right (Nat.sub_le n 1)]

/-- Face count of the grid topology: one quad per interior cell. -/
lemma make_faces_xy_length (m n : ℕ) :
    (make_faces_xy m n).length = (m - 1) * (n - 1) := by
  rw [make_faces_xy, List.length_flatMap]
  simp [Function.comp_def, List.map_const', List.sum_replicate, smul_eq_mul,
    Nat.mul_comm]

/-- The faces are exactly the quads `(i, i+m, i+m+1, i+1)` with
`i = r * m + c` over the interior cells. -/
lemma make_faces_xy_mem (m n : ℕ) (f : ℕ × ℕ × ℕ × ℕ) :
    f ∈ make_faces_xy m n ↔ ∃ r c, r < n - 1 ∧ c < m - 1 ∧
      f = (r * m + c, r * m + c + m, r * m + c + m + 1, r * m + c + 1) := by
  simp only [make_faces_xy, List.mem_flatMap, List.mem_map, List.mem_range]
  constructor
  · rintro ⟨row, hrow, col, hcol, rfl⟩
    exact ⟨row, col, hrow, hcol, rfl⟩
  · rintro ⟨r, c, hr, hc, rfl⟩
    exact ⟨r, hr, c, hc, rfl⟩

/-- C5 (confirmed): for `samplesU = m, samplesV = n` with `m, n ≥ 3` the
topology builders — pure functions of the two integers — emit exactly
`n*(m-1) + (n-1)*m` edges and `(m-1)*(n-1)` quads of the form
`(i, i+m, i+m+1, i+1)` with `i = r*m + c`, and every face's four indices
are mutually distinct and lie within `[0, m*n)`. -/
theorem C5_topology (m n : ℕ) (hm : 3 ≤ m) (hn : 3 ≤ n) :
    (make_edges_xy m n).length = n * (m - 1) + (n - 1) * m ∧
    (make_faces_xy m n).length = (m - 1) * (n - 1) ∧
    (∀ f ∈ make_faces_xy m n, ∃ r c, r < n - 1 ∧ c < m - 1 ∧
        f = (r * m + c, r * m + c + m, r * m + c + m + 1, r * m + c + 1)) ∧
    (∀ f ∈ make_faces_xy m n,
        (f.1 ≠ f.2.1 ∧ f.1 ≠ f.2.2.1 ∧ f.1 ≠ f.2.2.2 ∧
         f.2.1 ≠ f.2.2.1 ∧ f.2.1 ≠ f.2.2.2 ∧ f.2.2.1 ≠ f.2.2.2) ∧
        f.1 < m * n ∧ f.2.1 < m * n ∧ f.2.2.1 < m * n ∧ f.2.2.2 < m * n) := by
  refine ⟨make_edges_xy_length m n, make_faces_xy_length m n,
    fun f hf => (make_faces_xy_mem m n f).mp hf, fun f hf => ?_⟩
  obtain ⟨r, c, hr, hc, rfl⟩ := (make_faces_xy_mem m n f).mp hf
  dsimp only
  have hbound : r * m + c + m + 1 < m * n := by
    obtain ⟨m2, rfl⟩ : ∃ m2, m = m2 + 3 := ⟨m - 3, by omega⟩
    obtain ⟨n2, rfl⟩ : ∃ n2, n = n2 + 3 := ⟨n - 3, by omega⟩
    have hr2 : r ≤ n2 + 1 := by omega
    have hc2 : c ≤ m2 + 1 := by omega
    nlinarith [Nat.mul_le_mul_right (m2 + 3) hr2]
  revert hbound
  generalize r * m + c = i
  generalize m * n = mn
  intro hbound
  refine ⟨⟨?_, ?_, ?_, ?_, ?_, ?_⟩, ?_, ?_, ?_, ?_⟩ <;> omega

/-- C5 (witness): the `m = 4, n = 3` instance. -/
theorem C5_topology_witness :
    (make_edges_xy 4 3).length = 3 * (4 - 1) + (3 - 1) * 4 ∧
    (make_faces_xy 4 3).length = (4 - 1) * (3 - 1) ∧
    (∀ f ∈ make_faces_xy 4 3, ∃ r c, r < 3 - 1 ∧ c < 4 - 1 ∧
        f = (r * 4 + c, r * 4 + c + 4, r * 4 + c + 4 + 1, r * 4 + c + 1)) ∧
    (∀ f ∈ make_faces_xy 4 3,
        (f.1 ≠ f.2.1 ∧ f.1 ≠ f.2.2.1 ∧ f.1 ≠ f.2.2.2 ∧
         f.2.1 ≠ f.2.2.1 ∧ f.2.1 ≠ f.2.2.2 ∧ f.2.2.1 ≠ f.2.2.2) ∧
        f.1 < 4 * 3 ∧ f.2.1 < 4 * 3 ∧ f.2.2.1 < 4 * 3 ∧ f.2.2.2 < 4 * 3) :=
  C5_topology 4 3 (by decide) (by decide)

lemma nthRepeatLast_eq_none_iff (l : List α) (p : ℕ) :
    nthRepeatLast l p = none ↔ l.length = 0 := by
  rw [nthRepeatLast, List.getElem?_eq_none_iff]
  omega

lemma nthRepeatLast_pair (l1 : List α) (l2 : List β) (p : ℕ)
    (h : l1.length = l2.length) :
    (nthRepeatLast l1 p = none ∧ nthRepeatLast l2 p = none) ∨
    (∃ a1 a2, nthRepeatLast l1 p = some a1 ∧ nthRepeatLast l2 p = some a2) := by
  rcases h1 : nthRepeatLast l1 p with _ | a1
  · left
    refine ⟨rfl, ?_⟩
    rw [nthRepeatLast_eq_none_iff] at h1 ⊢
    omega
  · rcases h2 : nthRepeatLast l2 p with _ | a2
    · rw [nthRepeatLast_eq_none_iff] at h2
      have h3 : nthRepeatLast l1 p = none :=
        (nthRepeatLast_eq_none_iff l1 p).mpr (by omega)
      rw [h1] at h3
      exact Option.noConfusion h3
    · right
      exact ⟨a1, a2, rfl, rfl⟩

lemma alignAt_gridRel (S : List Surface) (us1 vs1 : List (List ℚ))
    (verts1 : List (List Vec3)) (su sv : List ℕ)
    (us2 vs2 : List (List ℚ)) (verts2 : List (List Vec3))
    (hu : us1.length = us2.length) (hv : vs1.length = vs2.length)
    (hw : verts1.length = verts2.length) (p : ℕ) :
    optRel gridRel (alignAt S us1 vs1 verts1 su sv p)
      (alignAt S us2 vs2 verts2 su sv p) := by
  rcases nthRepeatLast_pair us1 us2 p hu with ⟨hu1, hu2⟩ | ⟨a1, a2, hu1, hu2⟩ <;>
  rcases nthRepeatLast_pair vs1 vs2 p hv with ⟨hv1, hv2⟩ | ⟨b1, b2, hv1, hv2⟩ <;>
  rcases nthRepeatLast_pair verts1 verts2 p hw with ⟨hw1, hw2⟩ | ⟨c1, c2, hw1, hw2⟩ <;>
  rcases hS : nthRepeatLast S p with _ | s <;>
  rcases hsu : nthRepeatLast su p with _ | sa <;>
  rcases hsv : nthRepeatLast sv p with _ | sb <;>
  simp [alignAt, hS, hu1, hu2, hv1, hv2, hw1, hw2, hsu, hsv, optRel, gridRel]

lemma buildTuples_rel (g1 g2 : ℕ → Option InTuple)
    (hg : ∀ p, optRel gridRel (g1 p) (g2 p)) :
    ∀ l : List ℕ, optRel (List.Forall₂ gridRel) (buildTuples g1 l)
      (buildTuples g2 l) := by
  intro l
  induction l with
  | nil => simp [buildTuples, optRel]
  | cons p ps ih =>
      have h := hg p
      rcases h1 : g1 p with _ | t1
      · rcases h2 : g2 p with _ | t2
        · simp [buildTuples, h1, h2, optRel]
        · rw [h1, h2] at h
          exact absurd h (by simp [optRel])
      · rcases h2 : g2 p with _ | t2
        · rw [h1, h2] at h
          exact absurd h (by simp [optRel])
        · rw [h1, h2] at h
          simp only [optRel] at h
          rcases hb1 : buildTuples g1 ps with _ | ts1
          · rcases hb2 : buildTuples g2 ps with _ | ts2
            · simp [buildTuples, h1, h2, hb1, hb2, optRel]
            · rw [hb1, hb2] at ih
              exact absurd ih (by simp [optRel])
          · rcases hb2 : buildTuples g2 ps with _ | ts2
            · rw [hb1, hb2] at ih
              exact absurd ih (by simp [optRel])
            · rw [hb1, hb2] at ih
              simp only [optRel] at ih
              simp only [buildTuples, h1, h2, hb1, hb2, Option.some_bind,
                optRel]
              exact List.Forall₂.cons h ih

lemma processTuple_gridRel (cm : CoordMode) (im : InputMode) (o : Plane)
    (t1 t2 : InTuple) (h : gridRel t1 t2) :
    processTuple cm EvalMode.GRID im o t1.surface t1.target_us t1.target_vs
        t1.target_verts t1.samples_u t1.samples_v
      = processTuple cm EvalMode.GRID im o t2.surface t2.target_us
        t2.target_vs t2.target_verts t2.samples_u t2.samples_v := by
  obtain ⟨h1, h2, h3⟩ := h
  rw [h1, h2, h3]
  rfl

lemma processLoop_gridRel (cm : CoordMode) (im : InputMode) (o : Plane)
    (ts1 ts2 : List InTuple) (h : List.Forall₂ gridRel ts1 ts2) :
    processLoop cm EvalMode.GRID im o ts1
      = processLoop cm EvalMode.GRID im o ts2 := by
  induction h with
  | nil => rfl
  | cons ht hts ih =>
      simp only [processLoop]
      rw [processTuple_gridRel cm im o _ _ ht, ih]

lemma evalCalls_gridRel (cm : CoordMode) (im : InputMode) (o : Plane)
    (ts1 ts2 : List InTuple) (h : List.Forall₂ gridRel ts1 ts2) :
    evalCalls cm EvalMode.GRID im o ts1
      = evalCalls cm EvalMode.GRID im o ts2 := by
  induction h with
  | nil => rfl
  | cons ht hts ih =>
      simp only [evalCalls]
      rw [processTuple_gridRel cm im o _ _ ht, ih]

theorem C10_grid_ignores_uv_vertex_values (cm : CoordMode) (im : InputMode)
    (o : Plane) (lv le lf : Bool) (S : List Surface)
    (us1 vs1 us2 vs2 : List (List ℚ)) (verts1 verts2 : List (List Vec3))
    (su sv : List ℕ)
    (hu : us1.length = us2.length) (hv : vs1.length = vs2.length)
    (hw : verts1.length = verts2.length) :
    process cm EvalMode.GRID im o lv le lf S us1 vs1 verts1 su sv
      = process cm EvalMode.GRID im o lv le lf S us2 vs2 verts2 su sv := by
  unfold process
  cases hlink : !(lv || le || lf)
  · simp only [Bool.false_eq_true, if_false]
    unfold zip_long_repeat
    rw [hu, hv, hw]
    have hrel := buildTuples_rel _ _
      (fun p => alignAt_gridRel S us1 vs1 verts1 su sv us2 vs2 verts2
        hu hv hw p)
      (List.range (max (max (max S.length us2.length)
        (max vs2.length verts2.length)) (max su.length sv.length)))
    rcases h1 : buildTuples (alignAt S us1 vs1 verts1 su sv)
        (List.range (max (max (max S.length us2.length)
          (max vs2.length verts2.length)) (max su.length sv.length)))
      with _ | ts1
    · rcases h2 : buildTuples (alignAt S us2 vs2 verts2 su sv)
          (List.range (max (max (max S.length us2.length)
            (max vs2.length verts2.length)) (max su.length sv.length)))
        with _ | ts2
      · rfl
      · rw [h1, h2] at hrel
        exact absurd hrel (by simp [optRel])
    · rcases h2 : buildTuples (alignAt S us2 vs2 verts2 su sv)
          (List.range (max (max (max S.length us2.length)
            (max vs2.length verts2.length)) (max su.length sv.length)))
        with _ | ts2
      · rw [h1, h2] at hrel
        exact absurd hrel (by simp [optRel])
      · rw [h1, h2] at hrel
        simp only [optRel] at hrel
        dsimp only
        rw [processLoop_gridRel cm im o ts1 ts2 hrel,
          evalCalls_gridRel cm im o ts1 ts2 hrel]
  · simp [hlink]


/-- C10 (witness): two concrete grid-mode runs differing only in the U, V
and Vertices socket values produce identical outputs. -/
theorem C10_grid_ignores_uv_vertex_values_witness :
    process CoordMode.UV EvalMode.GRID InputMode.PAIRS Plane.XY true true
        true [surfUV] [[0, 1]] [[2]] [[(0, 0, 0)]] [3] [3]
      = process CoordMode.UV EvalMode.GRID InputMode.PAIRS Plane.XY true true
        true [surfUV] [[7, 8]] [[9]] [[(5, 5, 5)]] [3] [3] :=
  C10_grid_ignores_uv_vertex_values CoordMode.UV InputMode.PAIRS Plane.XY
    true true true [surfUV] [[0, 1]] [[2]] [[7, 8]] [[9]] [[(0, 0, 0)]]
    [[(5, 5, 5)]] [3] [3] rfl rfl rfl

end EvalSurface
